import Mathlib

/-!
Verification of the `mp3_music_player` repository (files `player.py` and
`player_gui.py`) against its natural-language specification.

The development shallowly embeds the two components the claims are about:

* the track catalog `list_tracks(music_folder)` — modelled as a pure function
  over a flat directory listing (a list of path strings, as produced by
  `Path.iterdir()`), together with faithful models of `pathlib.Path.suffix`,
  `str.lower()` (ASCII), and Python's `sorted` on POSIX paths (lexicographic
  by code point on the full path string);

* the `MusicPlayer` controller class — modelled as a record of its five
  fields, with each method a total function of the current state and an
  `Engine` record describing how the opaque native VLC engine responds to
  each call (whether a call raises, and what the time/duration queries
  report).  A Python `except` branch corresponds to the "call rejected"
  value of the relevant `Engine` field.
-/

namespace MP3Player

/-! ### Python string ordering (code-point lexicographic) -/

/-- Lexicographic `≤` on char lists by code point: exactly Python's `str`
comparison (and `PosixPath` comparison of full path strings). -/
def listLe : List Char → List Char → Bool
  | [], _ => true
  | _ :: _, [] => false
  | a :: as, b :: bs =>
    if a.toNat < b.toNat then true
    else if b.toNat < a.toNat then false
    else listLe as bs

/-- String `≤` as Python compares strings. -/
def strLe (a b : String) : Bool := listLe a.data b.data

theorem listLe_total : ∀ a b : List Char, listLe a b = true ∨ listLe b a = true
  | [], _ => Or.inl rfl
  | _ :: _, [] => Or.inr rfl
  | a :: as, b :: bs => by
    by_cases h1 : a.toNat < b.toNat
    · left; simp [listLe, h1]
    · by_cases h2 : b.toNat < a.toNat
      · right; simp [listLe, h2]
      · rcases listLe_total as bs with h | h
        · left; simp [listLe, h1, h2, h]
        · right; simp [listLe, h1, h2, h]

theorem listLe_trans : ∀ a b c : List Char,
    listLe a b = true → listLe b c = true → listLe a c = true
  | [], _, _, _, _ => rfl
  | _ :: _, [], _, h, _ => by simp [listLe] at h
  | _ :: _, _ :: _, [], _, h2 => by simp [listLe] at h2
  | a :: as, b :: bs, c :: cs, h1, h2 => by
    simp only [listLe] at h1 h2 ⊢
    by_cases hab : a.toNat < b.toNat <;> by_cases hbc : b.toNat < c.toNat
    · simp [Nat.lt_trans hab hbc]
    · simp only [hbc, if_false] at h2
      by_cases hcb : c.toNat < b.toNat
      · simp [hcb] at h2
      · have hbc' : b.toNat = c.toNat := Nat.le_antisymm (Nat.le_of_not_lt hcb) (Nat.le_of_not_lt hbc)
        simp [hbc' ▸ hab]
    · simp only [hab, if_false] at h1
      by_cases hba : b.toNat < a.toNat
      · simp [hba] at h1
      · have hab' : a.toNat = b.toNat := Nat.le_antisymm (Nat.le_of_not_lt hba) (Nat.le_of_not_lt hab)
        simp [hab' ▸ hbc]
    · simp only [hab, if_false] at h1
      simp only [hbc, if_false] at h2
      by_cases hba : b.toNat < a.toNat
      · simp [hba] at h1
      · by_cases hcb : c.toNat < b.toNat
        · simp [hcb] at h2
        · have hab' : a.toNat = b.toNat := Nat.le_antisymm (Nat.le_of_not_lt hba) (Nat.le_of_not_lt hab)
          have hbc' : b.toNat = c.toNat := Nat.le_antisymm (Nat.le_of_not_lt hcb) (Nat.le_of_not_lt hbc)
          simp only [hba, if_false] at h1
          simp only [hcb, if_false] at h2
          have hac : ¬ a.toNat < c.toNat := by omega
          have hca : ¬ c.toNat < a.toNat := by omega
          simp [hac, hca, listLe_trans as bs cs h1 h2]

/-- The sorting relation used to model Python's `sorted` on paths. -/
def pyLe (a b : String) : Prop := strLe a b = true

instance : DecidableRel pyLe := fun a b => by unfold pyLe; infer_instance

instance : IsTotal String pyLe := ⟨fun a b => listLe_total a.data b.data⟩

instance : IsTrans String pyLe := ⟨fun a b c => listLe_trans a.data b.data c.data⟩

/-! ### Track catalog: `list_tracks` -/

/-- Model of `pathlib.Path.suffix`: the extension of the final path
component, i.e. the part of the name from its last dot, empty when the name
has no dot, starts with its only dot, or ends with the dot. -/
def pathSuffix (s : String) : String :=
  let rev := s.data.reverse.takeWhile (fun c => c ≠ '/')
  let ext := rev.takeWhile (fun c => c ≠ '.')
  if 0 < ext.length ∧ ext.length + 1 < rev.length then
    String.mk ('.' :: ext.reverse)
  else ""

/-- Model of Python `str.lower()` on ASCII strings. -/
def lowerStr (s : String) : String := String.mk (s.data.map Char.toLower)

/-- The `VALID_EXTENSIONS` set from `player.py`. -/
def VALID_EXTENSIONS : List String := [".mp3", ".wav", ".ogg"]

/-- The filter `f.suffix.lower() in VALID_EXTENSIONS` from `list_tracks`. -/
def isAudio (f : String) : Bool := VALID_EXTENSIONS.contains (lowerStr (pathSuffix f))

/-- Model of `list_tracks(music_folder)`: the folder is given by whether it
exists, whether it is a directory, and its flat listing (full paths, as
`Path.iterdir()` yields them; no recursion happens).  Returns `[]` when the
folder is missing, otherwise the matching entries sorted by Python's path
order. -/
def list_tracks (dirExists isDir : Bool) (entries : List String) : List String :=
  if !dirExists || !isDir then []
  else List.insertionSort pyLe (entries.filter isAudio)

/-! ### The `MusicPlayer` controller -/

/-- Behaviour of the opaque native VLC engine for one controller call
sequence: a `true`/`some` field means the corresponding native call
succeeds, `false`/`none` means it raises, and the two query fields give the
values `get_time`/`get_duration` report. -/
structure Engine where
  initOk : Bool
  mediaNewOk : Bool
  playOk : Bool
  pauseOk : Bool
  stopOk : Bool
  seekOk : Bool
  timeResult : Option Int
  mediaDuration : Option Int

/-- The native player object held in `self.player`: its only observable is
the media reference set by `set_media`, read back by `get_media`. -/
structure PlayerHandle where
  media : Option String
deriving DecidableEq

/-- State of a `MusicPlayer` object: `inst` models `self.instance` being
non-`None`, `player` models `self.player` (with its set media), and the
remaining fields are `self.current_file`, `self.is_playing`,
`self.is_paused`. -/
structure MusicPlayer where
  inst : Bool
  player : Option PlayerHandle
  current_file : Option String
  is_playing : Bool
  is_paused : Bool
deriving DecidableEq

/-- The state built by `MusicPlayer.__init__`. -/
def MusicPlayer.initial : MusicPlayer :=
  { inst := false, player := none, current_file := none,
    is_playing := false, is_paused := false }

/-- Model of `MusicPlayer.initialize`: on engine success a fresh instance
and a fresh player (with no media) are installed and `True` is returned; if
the engine raises, both are reset to `None` and `False` is returned. -/
def MusicPlayer.initEngine (s : MusicPlayer) (e : Engine) : MusicPlayer × Bool :=
  if e.initOk then ({ s with inst := true, player := some ⟨none⟩ }, true)
  else ({ s with inst := false, player := none }, false)

/-- Model of `MusicPlayer.load_track`: fails when instance or player is
missing; otherwise `media_new`/`set_media` either raise (no state change) or
install the new media and record `current_file`. -/
def MusicPlayer.load_track (s : MusicPlayer) (e : Engine) (p : String) :
    MusicPlayer × Bool :=
  if !s.inst || s.player.isNone then (s, false)
  else if e.mediaNewOk then
    ({ s with player := some ⟨some p⟩, current_file := some p }, true)
  else (s, false)

/-- Model of `MusicPlayer.play`: fails when the player is missing or the
engine call raises (state unchanged); otherwise sets `is_playing := true`,
`is_paused := false`. -/
def MusicPlayer.play (s : MusicPlayer) (e : Engine) : MusicPlayer × Bool :=
  if s.player.isNone then (s, false)
  else if e.playOk then ({ s with is_playing := true, is_paused := false }, true)
  else (s, false)

/-- Model of `MusicPlayer.pause`: fails when the player is missing or the
engine call raises (state unchanged); otherwise sets `is_paused := true`
only — `is_playing` is not consulted and not changed. -/
def MusicPlayer.pause (s : MusicPlayer) (e : Engine) : MusicPlayer × Bool :=
  if s.player.isNone then (s, false)
  else if e.pauseOk then ({ s with is_paused := true }, true)
  else (s, false)

/-- Model of `MusicPlayer.resume`: same native call as `play` (it invokes
`self.player.play()`), but only clears `is_paused`. -/
def MusicPlayer.resume (s : MusicPlayer) (e : Engine) : MusicPlayer × Bool :=
  if s.player.isNone then (s, false)
  else if e.playOk then ({ s with is_paused := false }, true)
  else (s, false)

/-- Model of `MusicPlayer.stop`: fails when the player is missing or the
engine call raises (state unchanged); otherwise clears both flags. -/
def MusicPlayer.stop (s : MusicPlayer) (e : Engine) : MusicPlayer × Bool :=
  if s.player.isNone then (s, false)
  else if e.stopOk then
    ({ s with is_playing := false, is_paused := false }, true)
  else (s, false)

/-- Model of `MusicPlayer.get_duration`: reading `self.player.get_media()`
on a `None` player raises `AttributeError`, which the bare `except` maps to
`-1`; a player with no media falls through to `-1`; with media set, the
engine's `get_duration` either raises (`-1`) or its value is returned. -/
def MusicPlayer.get_duration (s : MusicPlayer) (e : Engine) : Int :=
  match s.player with
  | none => -1
  | some ph =>
    match ph.media with
    | none => -1
    | some _ =>
      match e.mediaDuration with
      | none => -1
      | some d => d

/-- Model of `MusicPlayer.get_current_time`: `self.player.get_time()` on a
`None` player raises (mapped to `-1`); otherwise the engine's reported time
is returned, or `-1` when the call raises. -/
def MusicPlayer.get_current_time (s : MusicPlayer) (e : Engine) : Int :=
  match s.player with
  | none => -1
  | some _ =>
    match e.timeResult with
    | none => -1
    | some t => t

/-- Result of `set_position`: the new state, the returned boolean, and the
argument actually passed to the native `set_position` call (`none` when no
native call was made). -/
structure SeekResult where
  state : MusicPlayer
  ok : Bool
  forwarded : Option ℚ
deriving DecidableEq

/-- The clamping expression `max(0.0, min(1.0, float(position)))` from
`set_position`, over the rationals. -/
def clampPos (x : ℚ) : ℚ := max 0 (min 1 x)

/-- Model of `MusicPlayer.set_position`: fails when the player is missing
(no native call); otherwise the clamped value is forwarded to the engine,
and the result is `False` exactly when that native call raises. -/
def MusicPlayer.set_position (s : MusicPlayer) (e : Engine) (x : ℚ) : SeekResult :=
  if s.player.isNone then ⟨s, false, none⟩
  else if e.seekOk then ⟨s, true, some (clampPos x)⟩
  else ⟨s, false, some (clampPos x)⟩

/-- An engine that accepts every call and reports concrete time values. -/
def engineOk : Engine :=
  { initOk := true, mediaNewOk := true, playOk := true, pauseOk := true,
    stopOk := true, seekOk := true, timeResult := some 2000,
    mediaDuration := some 180000 }

end MP3Player

namespace MP3Player

/-- An engine whose creation call is rejected (models a missing native
runtime). -/
def engineFail : Engine :=
  { initOk := false, mediaNewOk := false, playOk := false, pauseOk := false,
    stopOk := false, seekOk := false, timeResult := none,
    mediaDuration := none }

/-- C1 counterexample: take the controller obtained by a successful
`initialize()` with no track ever loaded, and a native engine that accepts
the `play` call (as libVLC does — it signals "no media" through an ignored
return code, not an exception).  Then `play()` returns `True`, sets
`is_playing`, and changes the state: the code checks only `self.player`,
never `current_file`, so the claimed failure does not happen. -/
theorem c1_counterexample :
    let s1 := (MusicPlayer.initial.initEngine engineOk).1
    s1.current_file = none ∧ (s1.play engineOk).2 = true ∧
      (s1.play engineOk).1.is_playing = true ∧ (s1.play engineOk).1 ≠ s1 := by
  decide

/-- C1 (amended): for a controller whose `initialize()` succeeded and which
has no track loaded, `play()` fails only when the native call raises, and
then the state is unchanged; when the engine accepts the call, `play()`
succeeds despite the absent track, setting `is_playing := true` and
`is_paused := false` while `current_file` stays unset. -/
theorem c1_play_without_track (e e' : Engine) (h : e.initOk = true) :
    let s1 := (MusicPlayer.initial.initEngine e).1
    (e'.playOk = false → s1.play e' = (s1, false)) ∧
    (e'.playOk = true → (s1.play e').2 = true ∧
      (s1.play e').1.is_playing = true ∧ (s1.play e').1.is_paused = false ∧
      (s1.play e').1.current_file = none) := by
  simp only [MusicPlayer.initEngine, h, if_true]
  constructor
  · intro hpl
    simp [MusicPlayer.play, hpl]
  · intro hpl
    simp [MusicPlayer.play, hpl, MusicPlayer.initial]

/-- C1 witness: the amended statement at the all-accepting engine. -/
theorem c1_play_without_track_witness :
    (((MusicPlayer.initial.initEngine engineOk).1.play engineOk).2 = true) ∧
    ((MusicPlayer.initial.initEngine engineOk).1.play engineOk).1.is_playing = true :=
  ⟨((c1_play_without_track engineOk engineOk rfl).2 rfl).1,
   ((c1_play_without_track engineOk engineOk rfl).2 rfl).2.1⟩

/-- C2 counterexample: after a successful `initialize()` the controller is
not playing (`is_playing = false`), yet `pause()` with an accepting engine
returns `True` and sets `is_paused`: the code checks only `self.player`,
never the playing flag, so `pause()` is not restricted to the Playing
state. -/
theorem c2_counterexample :
    let s1 := (MusicPlayer.initial.initEngine engineOk).1
    s1.is_playing = false ∧ (s1.pause engineOk).2 = true ∧
      (s1.pause engineOk).1.is_paused = true := by
  decide

/-- C2 (amended): `pause()` fails exactly when the player is missing or the
native call raises — independently of the playing flag; on failure the
state is unchanged, and on success only `is_paused` is set. -/
theorem c2_pause_any_state (s : MusicPlayer) (e : Engine) :
    ((s.pause e).2 = false ↔ (s.player = none ∨ e.pauseOk = false)) ∧
    ((s.pause e).2 = false → (s.pause e).1 = s) ∧
    (s.player ≠ none → e.pauseOk = true →
      s.pause e = ({ s with is_paused := true }, true)) := by
  rcases hs : s.player with _ | ph
  · simp [MusicPlayer.pause, hs]
  · rcases he : e.pauseOk
    · simp [MusicPlayer.pause, hs, he]
    · simp [MusicPlayer.pause, hs, he]

/-- C2 witness: the amended statement at the not-playing controller reached
by `initialize()` alone, with an accepting engine. -/
theorem c2_pause_any_state_witness :
    (MusicPlayer.initial.initEngine engineOk).1.pause engineOk =
      ({ (MusicPlayer.initial.initEngine engineOk).1 with is_paused := true }, true) :=
  (c2_pause_any_state (MusicPlayer.initial.initEngine engineOk).1 engineOk).2.2
    (by decide) rfl

/-- C3 counterexample: load a track, `play()` it, then successfully load
another track: the load returns `True` and rebinds `current_file`, but
`is_playing` is still `true` afterwards — `load_track` touches no flag, so
the claimed reset of the playing/paused flags to false does not happen. -/
theorem c3_counterexample :
    let s1 := (MusicPlayer.initial.initEngine engineOk).1
    let s2 := (s1.load_track engineOk "music/a.mp3").1
    let s3 := (s2.play engineOk).1
    let r := s3.load_track engineOk "music/B.WAV"
    r.2 = true ∧ r.1.current_file = some "music/B.WAV" ∧
      r.1.is_playing = true := by
  decide

/-- C3 (amended): with a live engine and player, a successful load binds the
track's path (replacing any prior binding in both `current_file` and the
player's media) and does not start playback, but it leaves the
`is_playing` and `is_paused` flags exactly as they were — they are not
reset to false. -/
theorem c3_load_track (s : MusicPlayer) (e : Engine) (p : String)
    (hi : s.inst = true) (hp : s.player ≠ none) (he : e.mediaNewOk = true) :
    s.load_track e p =
      ({ s with player := some ⟨some p⟩, current_file := some p }, true) ∧
    (s.load_track e p).1.is_playing = s.is_playing ∧
    (s.load_track e p).1.is_paused = s.is_paused := by
  rcases hs : s.player with _ | ph
  · exact absurd hs hp
  · simp [MusicPlayer.load_track, hs, hi, he]

/-- C3 witness: the amended statement at a playing controller. -/
theorem c3_load_track_witness :
    let s : MusicPlayer :=
      { inst := true, player := some ⟨some "music/a.mp3"⟩,
        current_file := some "music/a.mp3", is_playing := true,
        is_paused := false }
    s.load_track engineOk "music/B.WAV" =
      ({ s with player := some ⟨some "music/B.WAV"⟩,
                current_file := some "music/B.WAV" }, true) :=
  (c3_load_track _ engineOk "music/B.WAV" rfl (by decide) rfl).1

/-- C4: when the native engine accepts every call, the sequence
`initialize` → `load` → `play` → `pause` → `resume` → `stop` reports
success at every step and ends with `is_playing = false`,
`is_paused = false`, and the track binding retained, so a following
`play()` succeeds. -/
theorem c4_full_sequence (e : Engine) (p : String)
    (h1 : e.initOk = true) (h2 : e.mediaNewOk = true) (h3 : e.playOk = true)
    (h4 : e.pauseOk = true) (h5 : e.stopOk = true) :
    let r1 := MusicPlayer.initial.initEngine e
    let r2 := r1.1.load_track e p
    let r3 := r2.1.play e
    let r4 := r3.1.pause e
    let r5 := r4.1.resume e
    let r6 := r5.1.stop e
    r1.2 = true ∧ r2.2 = true ∧ r3.2 = true ∧ r4.2 = true ∧ r5.2 = true ∧
    r6.2 = true ∧ r6.1.is_playing = false ∧ r6.1.is_paused = false ∧
    r6.1.current_file = some p ∧ (r6.1.play e).2 = true := by
  simp [MusicPlayer.initEngine, MusicPlayer.load_track, MusicPlayer.play,
        MusicPlayer.pause, MusicPlayer.resume, MusicPlayer.stop,
        MusicPlayer.initial, h1, h2, h3, h4, h5]

/-- C4 witness: the sequence at the all-accepting engine on a concrete
track. -/
theorem c4_full_sequence_witness :
    let r6 := (((((MusicPlayer.initial.initEngine engineOk).1.load_track
      engineOk "music/a.mp3").1.play engineOk).1.pause engineOk).1.resume
      engineOk).1.stop engineOk
    r6.2 = true ∧ r6.1.is_playing = false ∧ r6.1.is_paused = false ∧
      r6.1.current_file = some "music/a.mp3" ∧ (r6.1.play engineOk).2 = true := by
  have h := c4_full_sequence engineOk "music/a.mp3" rfl rfl rfl rfl rfl
  exact ⟨h.2.2.2.2.2.1, h.2.2.2.2.2.2.1, h.2.2.2.2.2.2.2.1,
         h.2.2.2.2.2.2.2.2.1, h.2.2.2.2.2.2.2.2.2⟩

/-- C5: a controller whose `initialize()` was rejected by the engine is left
exactly in its `__init__` state (`instance` and `player` both `None`), and
from that state every operation — `load_track`, `play`, `pause`, `resume`,
`stop`, `set_position` — returns `False` with no field change and no native
call, while `get_duration` and `get_current_time` return the sentinel
`-1`. -/
theorem c5_failed_init (e : Engine) (he : e.initOk = false) (e' : Engine)
    (p : String) (x : ℚ) :
    MusicPlayer.initial.initEngine e = (MusicPlayer.initial, false) ∧
    MusicPlayer.initial.load_track e' p = (MusicPlayer.initial, false) ∧
    MusicPlayer.initial.play e' = (MusicPlayer.initial, false) ∧
    MusicPlayer.initial.pause e' = (MusicPlayer.initial, false) ∧
    MusicPlayer.initial.resume e' = (MusicPlayer.initial, false) ∧
    MusicPlayer.initial.stop e' = (MusicPlayer.initial, false) ∧
    MusicPlayer.initial.set_position e' x = ⟨MusicPlayer.initial, false, none⟩ ∧
    MusicPlayer.initial.get_duration e' = -1 ∧
    MusicPlayer.initial.get_current_time e' = -1 := by
  refine ⟨?_, ?_, ?_, ?_, ?_, ?_, ?_, ?_, ?_⟩ <;>
    simp [MusicPlayer.initEngine, MusicPlayer.load_track, MusicPlayer.play,
          MusicPlayer.pause, MusicPlayer.resume, MusicPlayer.stop,
          MusicPlayer.set_position, MusicPlayer.get_duration,
          MusicPlayer.get_current_time, MusicPlayer.initial, he]

/-- C5 witness: the statement at the all-rejecting engine, a concrete path
and a concrete seek fraction. -/
theorem c5_failed_init_witness :
    MusicPlayer.initial.initEngine engineFail = (MusicPlayer.initial, false) ∧
    MusicPlayer.initial.play engineOk = (MusicPlayer.initial, false) ∧
    MusicPlayer.initial.get_duration engineOk = -1 :=
  ⟨(c5_failed_init engineFail rfl engineOk "music/a.mp3" 0).1,
   (c5_failed_init engineFail rfl engineOk "music/a.mp3" 0).2.2.1,
   (c5_failed_init engineFail rfl engineOk "music/a.mp3" 0).2.2.2.2.2.2.2.1⟩

end MP3Player

namespace MP3Player

/-- C6: for every existing directory, `list_tracks` returns exactly the
entries whose extension, lowercased, is in `{.mp3, .wav, .ogg}`, and the
result is sorted ascending in Python's path order (the listing is flat —
`Path.iterdir()` does not recurse). -/
theorem c6_scan_filter_sorted (dirExists isDir : Bool) (entries : List String)
    (h1 : dirExists = true) (h2 : isDir = true) :
    (∀ f, f ∈ list_tracks dirExists isDir entries ↔
      (f ∈ entries ∧ isAudio f = true)) ∧
    List.Sorted pyLe (list_tracks dirExists isDir entries) := by
  subst h1; subst h2
  have hl : list_tracks true true entries =
      List.insertionSort pyLe (entries.filter isAudio) := by
    simp [list_tracks]
  constructor
  · intro f
    rw [hl, (List.perm_insertionSort pyLe (entries.filter isAudio)).mem_iff,
        List.mem_filter]
  · rw [hl]
    exact List.sorted_insertionSort pyLe _

/-- C6 witness: on the `music/` listing, the recognized `B.WAV` is in the
result, the unrecognized `notes.txt` is not, and the result is sorted. -/
theorem c6_scan_filter_sorted_witness :
    ("music/B.WAV" ∈
      list_tracks true true ["music/a.mp3", "music/B.WAV", "music/notes.txt"]) ∧
    ("music/notes.txt" ∉
      list_tracks true true ["music/a.mp3", "music/B.WAV", "music/notes.txt"]) ∧
    List.Sorted pyLe
      (list_tracks true true ["music/a.mp3", "music/B.WAV", "music/notes.txt"]) :=
  ⟨((c6_scan_filter_sorted true true _ rfl rfl).1 _).mpr ⟨by decide, by decide⟩,
   fun hc => absurd (((c6_scan_filter_sorted true true _ rfl rfl).1 _).mp hc)
     (by decide),
   (c6_scan_filter_sorted true true _ rfl rfl).2⟩

/-- C7 counterexample: on the directory `music/` with entries `a.mp3`,
`B.WAV`, `notes.txt`, the scan does not return `[a.mp3, B.WAV]`: Python's
`sorted` on POSIX paths compares code points, and `B` (66) sorts before
`a` (97). -/
theorem c7_counterexample :
    list_tracks true true ["music/a.mp3", "music/B.WAV", "music/notes.txt"] ≠
      ["music/a.mp3", "music/B.WAV"] := by
  decide

/-- C7 (amended): on that directory the scan returns the two recognized
files in the order `[B.WAV, a.mp3]` — `B.WAV` first, because uppercase
letters precede lowercase in code-point order. -/
theorem c7_scan_music_dir :
    list_tracks true true ["music/a.mp3", "music/B.WAV", "music/notes.txt"] =
      ["music/B.WAV", "music/a.mp3"] := by
  decide

/-- C8: with a live player, `set_position` always forwards exactly the
input clamped to `[0, 1]` to the engine and changes no controller field;
the clamp maps `-3/10` to `0`, `17/10` to `1`, leaves in-range inputs such
as `1/2` unchanged, and is a total function with range inside `[0, 1]`
(it cannot fail). -/
theorem c8_set_position_clamps (s : MusicPlayer) (e : Engine) (x : ℚ)
    (hp : s.player ≠ none) :
    (s.set_position e x).forwarded = some (clampPos x) ∧
    (s.set_position e x).state = s ∧
    clampPos (-3/10) = 0 ∧ clampPos (17/10) = 1 ∧ clampPos (1/2) = 1/2 ∧
    (0 ≤ x → x ≤ 1 → clampPos x = x) ∧
    0 ≤ clampPos x ∧ clampPos x ≤ 1 := by
  rcases hs : s.player with _ | ph
  · exact absurd hs hp
  · refine ⟨?_, ?_, ?_, ?_, ?_, ?_, ?_, ?_⟩
    · rcases he : e.seekOk <;> simp [MusicPlayer.set_position, hs, he]
    · rcases he : e.seekOk <;> simp [MusicPlayer.set_position, hs, he]
    · norm_num [clampPos, max_def, min_def]
    · norm_num [clampPos, max_def, min_def]
    · norm_num [clampPos, max_def, min_def]
    · intro h0 h1
      rw [clampPos, min_eq_right h1, max_eq_right h0]
    · exact le_max_left 0 _
    · exact max_le zero_le_one (min_le_left 1 x)

/-- C8 witness: the statement at a loaded controller, the all-accepting
engine and input `1/2`. -/
theorem c8_set_position_clamps_witness :
    let s : MusicPlayer :=
      { inst := true, player := some ⟨some "music/a.mp3"⟩,
        current_file := some "music/a.mp3", is_playing := true,
        is_paused := false }
    (s.set_position engineOk (1/2)).forwarded = some (clampPos (1/2)) ∧
      clampPos (17/10) = 1 :=
  ⟨(c8_set_position_clamps
      { inst := true, player := some ⟨some "music/a.mp3"⟩,
        current_file := some "music/a.mp3", is_playing := true,
        is_paused := false } engineOk (1/2) (by decide)).1,
   (c8_set_position_clamps
      { inst := true, player := some ⟨some "music/a.mp3"⟩,
        current_file := some "music/a.mp3", is_playing := true,
        is_paused := false } engineOk (1/2) (by decide)).2.2.2.1⟩

/-- C9: `get_duration` and `get_current_time` are total (the Python
`try/except` swallows every engine failure) and every exceptional case —
`player` missing, no media loaded, or the native query raising — yields the
sentinel `-1`; in every other case the value is exactly what the engine
reported. -/
theorem c9_queries_never_fail (s : MusicPlayer) (e : Engine) :
    (s.player = none → s.get_duration e = -1 ∧ s.get_current_time e = -1) ∧
    (∀ ph, s.player = some ph → ph.media = none → s.get_duration e = -1) ∧
    (e.mediaDuration = none → s.get_duration e = -1) ∧
    (e.timeResult = none → s.get_current_time e = -1) ∧
    (s.get_duration e = -1 ∨
      ∃ d, e.mediaDuration = some d ∧ s.get_duration e = d) ∧
    (s.get_current_time e = -1 ∨
      ∃ t, e.timeResult = some t ∧ s.get_current_time e = t) := by
  rcases hs : s.player with _ | ⟨⟨_ | m⟩⟩ <;>
    rcases hd : e.mediaDuration with _ | d <;>
    rcases ht : e.timeResult with _ | t <;>
    simp [MusicPlayer.get_duration, MusicPlayer.get_current_time, hs, hd, ht]

/-- C9 witness: the uninitialized controller with a rejecting engine maps
both queries to `-1`. -/
theorem c9_queries_never_fail_witness :
    MusicPlayer.initial.get_duration engineFail = -1 ∧
      MusicPlayer.initial.get_current_time engineFail = -1 :=
  (c9_queries_never_fail MusicPlayer.initial engineFail).1 rfl

/-- C10: from any initialized controller whose playing flag is false (for
example right after `initialize()`, or after `stop()`), `pause()` with an
accepting engine returns `True` and sets `is_paused := true` while
`is_playing` stays `false`: the state `paused ∧ ¬playing` is reachable, and
no operation enforces that paused implies playing. -/
theorem c10_pause_when_not_playing (s : MusicPlayer) (e : Engine)
    (hp : s.player ≠ none) (hnp : s.is_playing = false)
    (he : e.pauseOk = true) :
    (s.pause e).2 = true ∧ (s.pause e).1.is_paused = true ∧
      (s.pause e).1.is_playing = false := by
  rcases hs : s.player with _ | ph
  · exact absurd hs hp
  · simp [MusicPlayer.pause, hs, he, hnp]

/-- C10 witness: the statement at the concrete reachable state
`initialize` → `load` → `play` → `stop`, with the all-accepting engine. -/
theorem c10_pause_when_not_playing_witness :
    let s := ((((MusicPlayer.initial.initEngine engineOk).1.load_track
      engineOk "music/a.mp3").1.play engineOk).1.stop engineOk).1
    (s.pause engineOk).2 = true ∧ (s.pause engineOk).1.is_paused = true ∧
      (s.pause engineOk).1.is_playing = false :=
  c10_pause_when_not_playing _ engineOk (by decide) (by decide) rfl

end MP3Player
